import Mathlib

/-!
Shallow embedding of two components of the `sentry` excerpt:

* `src/sentry/auth/password_validation.py` — a configurable password
  validation pipeline (`get_password_validators`, `validate_password`,
  help-text aggregation, `MaximumLengthValidator`);
* `src/sentry/db/models/paranoia.py` — a soft-delete ("paranoid") record
  mixin (`ParanoidQuerySet.delete`, `ParanoidManager.get_queryset`,
  `ParanoidModel.delete`, the `with_deleted` manager).

External collaborators (Django's exception classes, `import_string`,
`timezone.now`, the ORM's storage/update primitives) are modelled as
explicit parameters or as plain data, following the spec's description of
those collaborators.  Machine-level details (wall-clock time, database
rows) are modelled with `Nat` timestamps and in-memory lists of records.
-/

set_option autoImplicit false

/-- Django `ValidationError` payload.  A validation error either carries a
single message with an optional machine-readable code and parameters
(`ValidationError(msg, code=..., params=...)`), or wraps a list of
validation errors (`ValidationError(errors)` — the aggregate form raised
by `validate_password`). -/
inductive VEData where
  | single (message : String) (code : Option String) (params : List (String × Nat)) : VEData
  | aggregate (errors : List VEData) : VEData

/-- The kinds of Python exception relevant to this excerpt: Django's
`ValidationError`, Django's `ImproperlyConfigured` (carrying its message
string), and any other exception (identified by an opaque tag), which the
pipeline never catches. -/
inductive PyExn where
  | validationError (e : VEData) : PyExn
  | improperlyConfigured (msg : String) : PyExn
  | other (tag : String) : PyExn

/-- Options mapping passed to a validator class constructor
(`OPTIONS` in a descriptor, `**options` at the call).  Values are numeric
in this excerpt (`max_length`). -/
abbrev Options := List (String × Nat)

/-- A validator instance: the duck-typed interface used by the pipeline —
`validate(password, user)` which returns normally or raises, and
`get_help_text()`. -/
structure Validator where
  validate : String → Option String → Except PyExn Unit
  get_help_text : String

/-- A validator class, as delivered by type resolution: a constructor from
an options mapping to an instance (`cls(**options)`). -/
abbrev ValidatorClass := Options → Validator

/-- A validator descriptor from `AUTH_PASSWORD_VALIDATORS`: a `NAME`
(dotted-path string) and an optional `OPTIONS` mapping
(`validator.get("OPTIONS", {})` defaults it to the empty mapping). -/
structure ValidatorConfig where
  NAME : String
  OPTIONS : Option Options

/-- The message `get_password_validators` formats for an unresolvable
name: `msg % validator["NAME"]` with the template at line 19 of
`password_validation.py`. -/
def ic_message (name : String) : String :=
  "The module in NAME could not be imported: " ++ name ++
    ". Check your AUTH_PASSWORD_VALIDATORS setting."

/-- `get_password_validators(validator_config)`: for each descriptor in
order, resolve `NAME` (resolution — `import_string` — is the external
name-to-type lookup, passed here as `resolve`; `none` models
`ImportError`), raising `ImproperlyConfigured` if it fails, and otherwise
instantiate the class with the descriptor's options.  Returns the list of
instances in input order. -/
def get_password_validators (resolve : String → Option ValidatorClass) :
    List ValidatorConfig → Except PyExn (List Validator)
  | [] => .ok []
  | c :: cs =>
    match resolve c.NAME with
    | none => .error (.improperlyConfigured (ic_message c.NAME))
    | some cls =>
      match get_password_validators resolve cs with
      | .error e => .error e
      | .ok rest => .ok (cls (c.OPTIONS.getD []) :: rest)

/-- Operational trace of the `get_password_validators` loop: how many
`cls(**validator.get("OPTIONS", {}))` constructor invocations the loop
performs before it terminates (normally or by raising
`ImproperlyConfigured`).  Each iteration first resolves the name and, on
success, immediately builds the instance before moving to the next
descriptor, so the count stops at the first unresolvable name. -/
def constructors_invoked (resolve : String → Option ValidatorClass) :
    List ValidatorConfig → Nat
  | [] => 0
  | c :: cs =>
    match resolve c.NAME with
    | none => 0
    | some _ => 1 + constructors_invoked resolve cs

/-- The first descriptor name in the list that fails to resolve, if any. -/
def first_unresolvable (resolve : String → Option ValidatorClass) :
    List ValidatorConfig → Option String
  | [] => none
  | c :: cs =>
    match resolve c.NAME with
    | none => some c.NAME
    | some _ => first_unresolvable resolve cs

/-- The accumulation loop of `validate_password`: run each validator in
order; a `ValidationError` is caught and appended to `errors`; any other
exception propagates at once (the `except ValidationError` clause does not
match it), discarding the errors collected so far. -/
def run_validators (password : String) (user : Option String) :
    List Validator → Except PyExn (List VEData)
  | [] => .ok []
  | v :: vs =>
    match v.validate password user with
    | .ok _ => run_validators password user vs
    | .error (.validationError e) =>
      match run_validators password user vs with
      | .error e' => .error e'
      | .ok rest => .ok (e :: rest)
    | .error e => .error e

/-- `validate_password(password, user, password_validators)`: run every
validator, collecting `ValidationError`s; return `None` (`.ok ()`) when no
validator failed, and raise `ValidationError(errors)` (the aggregate)
otherwise.  The `password_validators is None` default (the globally
configured list) is external configuration; the list is passed
explicitly here. -/
def validate_password (password : String) (user : Option String)
    (password_validators : List Validator) : Except PyExn Unit :=
  match run_validators password user password_validators with
  | .error e => .error e
  | .ok [] => .ok ()
  | .ok errs => .error (.validationError (.aggregate errs))

/-- The `ValidationError`s collected by the loop of `validate_password`,
in validator order, assuming no validator raises a non-`ValidationError`
exception. -/
def collected_errors (password : String) (user : Option String) :
    List Validator → List VEData
  | [] => []
  | v :: vs =>
    match v.validate password user with
    | .error (.validationError e) => e :: collected_errors password user vs
    | _ => collected_errors password user vs

/-- Does this outcome of a `validate` call raise a `ValidationError`
(i.e. does the validator report a failure the pipeline collects)? -/
def is_validation_error : Except PyExn Unit → Bool
  | .error (.validationError _) => true
  | _ => false

/-- Does this outcome of a `validate` call either return normally or raise
a `ValidationError` — i.e. stay within the behaviour the pipeline's
`except ValidationError` clause handles? -/
def well_behaved : Except PyExn Unit → Bool
  | .ok _ => true
  | .error (.validationError _) => true
  | .error _ => false

/-- `password_validators_help_texts(password_validators)`: the loop
appending `validator.get_help_text()` for each validator in order. -/
def password_validators_help_texts : List Validator → List String
  | [] => []
  | v :: vs => v.get_help_text :: password_validators_help_texts vs

/-- HTML-escaping of a single character as performed by Django's
`format_html` on its arguments (`conditional_escape` on a plain string):
the five special characters are replaced by entities. -/
def escape_char (c : Char) : String :=
  if c = '&' then "&amp;"
  else if c = '<' then "&lt;"
  else if c = '>' then "&gt;"
  else if c = '"' then "&quot;"
  else if c = '\'' then "&#x27;"
  else String.singleton c

/-- Django HTML-escaping of a plain string, character by character. -/
def escape_html (s : String) : String :=
  String.join (s.data.map escape_char)

/-- `format_html("<li>{}</li>", help_text)`: the argument is escaped and
substituted into the template. -/
def li_item (help_text : String) : String :=
  "<li>" ++ escape_html help_text ++ "</li>"

/-- `_password_validators_help_text_html(password_validators)`: wrap each
help text in a list item; return `"<ul>%s</ul>" % "".join(help_items)`
when `help_items` is non-empty and `""` otherwise.  (The `lazy` wrapper
around this function only defers evaluation and is not modelled.) -/
def password_validators_help_text_html (password_validators : List Validator) :
    String :=
  let help_texts := password_validators_help_texts password_validators
  let help_items := help_texts.map li_item
  if help_items.isEmpty then "" else "<ul>" ++ String.join help_items ++ "</ul>"

/-- `ngettext(singular, plural, n)` under the default (English) plural rule:
the singular form is selected exactly when `n = 1`. -/
def ngettext (singular plural : String) (n : Nat) : String :=
  if n = 1 then singular else plural

/-- `%`-interpolation of the single `%(max_length)d` placeholder used by
`MaximumLengthValidator`'s messages. -/
def interpolate_max_length (template : String) (n : Nat) : String :=
  template.replace "%(max_length)d" (toString n)

/-- `MaximumLengthValidator`: holds the configured `max_length`. -/
structure MaximumLengthValidator where
  max_length : Nat

/-- `MaximumLengthValidator(**options)`: `max_length` keyword argument,
defaulting to 256. -/
def MaximumLengthValidator.new (options : Options) : MaximumLengthValidator :=
  ⟨((options.lookup "max_length").getD 256)⟩

/-- The pluralized message raised by `MaximumLengthValidator.validate`. -/
def max_length_message (n : Nat) : String :=
  ngettext
    "This password is too long. It must contain no more than %(max_length)d character."
    "This password is too long. It must contain no more than %(max_length)d characters."
    n

/-- `MaximumLengthValidator.validate(password, user)`: raise
`ValidationError` with code `password_too_long` and params
`{"max_length": self.max_length}` when `len(password) > self.max_length`,
else return normally. -/
def MaximumLengthValidator.validate (self : MaximumLengthValidator)
    (password : String) (_user : Option String) : Except PyExn Unit :=
  if password.length > self.max_length then
    .error (.validationError (.single (max_length_message self.max_length)
      (some "password_too_long") [("max_length", self.max_length)]))
  else .ok ()

/-- `MaximumLengthValidator.get_help_text()`: pluralized template
interpolated with `max_length`. -/
def MaximumLengthValidator.help_text (self : MaximumLengthValidator) : String :=
  interpolate_max_length
    (ngettext
      "Your password must contain no more than %(max_length)d character."
      "Your password must contain no more than %(max_length)d characters."
      self.max_length)
    self.max_length

/-- A `MaximumLengthValidator` instance seen through the pipeline's
duck-typed validator interface. -/
def MaximumLengthValidator.as_validator (self : MaximumLengthValidator) :
    Validator :=
  { validate := self.validate, get_help_text := self.help_text }

/-- A row of a soft-deletable (paranoid) model.  `id` is the primary key,
`date_deleted` the nullable deletion timestamp (wall-clock instants are
modelled as `Nat`), and `fields` stands for all the model's other columns
(opaque payload of type `α`). -/
structure ParanoidModel (α : Type) where
  id : Nat
  fields : α
  date_deleted : Option Nat
  deriving DecidableEq, Repr

/-- A database table of paranoid rows, in storage order. -/
abbrev ParanoidTable (α : Type) := List (ParanoidModel α)

/-- `ParanoidQuerySet.delete(self)`, i.e.
`self.update(date_deleted=timezone.now())`: the queryset is a filtered set
of rows (`p` is its filter predicate over the table `db`), and the
ORM's bulk update-by-filter primitive (external collaborator) sets the
field on every matching row, leaving the others untouched.  `now` is the
value of `timezone.now()` at the call. -/
def ParanoidQuerySet.delete {α : Type} (p : ParanoidModel α → Bool)
    (now : Nat) (db : ParanoidTable α) : ParanoidTable α :=
  db.map fun r => if p r then { r with date_deleted := some now } else r

/-- `ParanoidManager.get_queryset(self)`: the default retrieval path,
`ParanoidQuerySet(...).filter(date_deleted__isnull=True)` — only rows
whose deletion timestamp is null. -/
def ParanoidManager.get_queryset {α : Type} (db : ParanoidTable α) :
    ParanoidTable α :=
  db.filter fun r => r.date_deleted.isNone

/-- The `with_deleted = BaseManager()` retrieval path: no filter, all rows
regardless of deletion state. -/
def ParanoidModel.with_deleted {α : Type} (db : ParanoidTable α) :
    ParanoidTable α :=
  db

/-- Modelled from the spec: the persistence layer's "single-record update
primitive" (§6 (b)) used by `ParanoidModel.delete` as
`self.update(date_deleted=timezone.now())`.  The `update` helper of
`sentry.db.models` (`BaseModel.update`) is outside this excerpt; per the
spec's delete contract it "performs an update setting the deletion
timestamp to the current time" on the single record, i.e. it writes the
field on the stored row with the instance's primary key. -/
def update_date_deleted {α : Type} (pk : Nat) (now : Nat)
    (db : ParanoidTable α) : ParanoidTable α :=
  db.map fun r => if r.id = pk then { r with date_deleted := some now } else r

/-- `ParanoidModel.delete(self)`: soft-delete the single record by setting
its `date_deleted` to `timezone.now()` (passed as `now`). -/
def ParanoidModel.delete {α : Type} (self : ParanoidModel α) (now : Nat)
    (db : ParanoidTable α) : ParanoidTable α :=
  update_date_deleted self.id now db

/-- A concrete resolution environment for examples: one importable
validator class name, everything else unresolvable. -/
def demo_resolve : String → Option ValidatorClass :=
  fun n =>
    if n = "sentry.auth.password_validation.MaximumLengthValidator" then
      some fun opts => (MaximumLengthValidator.new opts).as_validator
    else none

/-- A descriptor whose name resolves under `demo_resolve`. -/
def demo_config_good : ValidatorConfig :=
  ⟨"sentry.auth.password_validation.MaximumLengthValidator", some [("max_length", 10)]⟩

/-- A descriptor whose name does not resolve under `demo_resolve`. -/
def demo_config_bad : ValidatorConfig :=
  ⟨"sentry.auth.password_validation.Missing", none⟩

/-- An individual failure used by example validators. -/
def demo_error1 : VEData := .single "first failure" (some "first_code") []

/-- A second individual failure used by example validators. -/
def demo_error2 : VEData := .single "second failure" (some "second_code") []

/-- An example validator that accepts every password. -/
def demo_ok_validator : Validator :=
  { validate := fun _ _ => .ok (), get_help_text := "anything goes" }

/-- An example validator that rejects every password with `demo_error1`. -/
def demo_fail_validator1 : Validator :=
  { validate := fun _ _ => .error (.validationError demo_error1)
    get_help_text := "never satisfied (1)" }

/-- An example validator that rejects every password with `demo_error2`. -/
def demo_fail_validator2 : Validator :=
  { validate := fun _ _ => .error (.validationError demo_error2)
    get_help_text := "never satisfied (2)" }

/-- An example validator that raises a non-`ValidationError` exception. -/
def demo_raise_validator : Validator :=
  { validate := fun _ _ => .error (.other "TypeError")
    get_help_text := "always raises" }

/-- Example table rows and table for the soft-delete claims. -/
def demo_row1 : ParanoidModel Nat := ⟨1, 10, none⟩

/-- A second alive example row. -/
def demo_row2 : ParanoidModel Nat := ⟨2, 20, none⟩

/-- An already soft-deleted example row. -/
def demo_row3 : ParanoidModel Nat := ⟨3, 30, some 5⟩

/-- An example table holding the three rows. -/
def demo_table : ParanoidTable Nat := [demo_row1, demo_row2, demo_row3]

theorem run_validators_eq_collected (password : String) (user : Option String) :
    ∀ vs : List Validator,
      (vs.all fun v => well_behaved (v.validate password user)) = true →
      run_validators password user vs = .ok (collected_errors password user vs) := by
  intro vs
  induction vs with
  | nil => intro _; rfl
  | cons v vs ih =>
    intro h
    simp only [List.all_cons, Bool.and_eq_true] at h
    obtain ⟨hv, hvs⟩ := h
    have ih' := ih hvs
    cases hval : v.validate password user with
    | ok u => simp [run_validators, collected_errors, hval, ih']
    | error e =>
      cases e with
      | validationError d => simp [run_validators, collected_errors, hval, ih']
      | improperlyConfigured m => rw [hval] at hv; simp [well_behaved] at hv
      | other t => rw [hval] at hv; simp [well_behaved] at hv

theorem collected_errors_length (password : String) (user : Option String) :
    ∀ vs : List Validator,
      (collected_errors password user vs).length =
        vs.countP fun v => is_validation_error (v.validate password user) := by
  intro vs
  induction vs with
  | nil => rfl
  | cons v vs ih =>
    cases hval : v.validate password user with
    | ok u => simp [collected_errors, List.countP_cons, is_validation_error, hval, ih]
    | error e =>
      cases e with
      | validationError d =>
        simp [collected_errors, List.countP_cons, is_validation_error, hval, ih]
      | improperlyConfigured m =>
        simp [collected_errors, List.countP_cons, is_validation_error, hval, ih]
      | other t =>
        simp [collected_errors, List.countP_cons, is_validation_error, hval, ih]

theorem collected_errors_mem (password : String) (user : Option String) :
    ∀ vs : List Validator, ∀ v ∈ vs, ∀ e,
      v.validate password user = .error (.validationError e) →
      e ∈ collected_errors password user vs := by
  intro vs
  induction vs with
  | nil => intro v hv; exact absurd hv (List.not_mem_nil v)
  | cons w vs ih =>
    intro v hv e he
    rcases List.mem_cons.mp hv with hv | hv
    · subst hv
      rw [collected_errors, he]
      exact List.mem_cons_self e _
    · have := ih v hv e he
      rw [collected_errors]
      cases hw : w.validate password user with
      | ok u => exact this
      | error e' =>
        cases e' with
        | validationError d => exact List.mem_cons_of_mem d this
        | improperlyConfigured m => exact this
        | other t => exact this

/-- Claim C1: when every validator either succeeds or raises a
`ValidationError`, and the password violates at least one of them,
`validate_password` raises a single aggregate `ValidationError` wrapping
the collected individual errors — in validator order, exactly one per
violated validator (as many as there are violated validators, with no
short-circuiting), with every violated validator's error present. -/
theorem validate_password_aggregates_failures (password : String)
    (user : Option String) (vs : List Validator)
    (hwb : (vs.all fun v => well_behaved (v.validate password user)) = true)
    (hK : vs.countP (fun v => is_validation_error (v.validate password user)) ≠ 0) :
    validate_password password user vs =
      .error (.validationError (.aggregate (collected_errors password user vs))) ∧
    (collected_errors password user vs).length =
      vs.countP (fun v => is_validation_error (v.validate password user)) ∧
    ∀ v ∈ vs, ∀ e, v.validate password user = .error (.validationError e) →
      e ∈ collected_errors password user vs := by
  have hrun := run_validators_eq_collected password user vs hwb
  have hlen := collected_errors_length password user vs
  refine ⟨?_, hlen, collected_errors_mem password user vs⟩
  unfold validate_password
  rw [hrun]
  cases hc : collected_errors password user vs with
  | nil =>
    rw [hc] at hlen
    simp only [List.length_nil] at hlen
    exact absurd hlen.symm hK
  | cons a as => rfl

/-- Witness for claim C1: three concrete validators, the first and third
violated; the aggregate holds both their errors. -/
theorem validate_password_aggregates_failures_witness :
    (([demo_fail_validator1, demo_ok_validator, demo_fail_validator2].all
        fun v => well_behaved (v.validate "hunter2" none)) = true) ∧
    ([demo_fail_validator1, demo_ok_validator, demo_fail_validator2].countP
        (fun v => is_validation_error (v.validate "hunter2" none)) ≠ 0) ∧
    validate_password "hunter2" none
        [demo_fail_validator1, demo_ok_validator, demo_fail_validator2] =
      .error (.validationError (.aggregate (collected_errors "hunter2" none
        [demo_fail_validator1, demo_ok_validator, demo_fail_validator2]))) :=
  ⟨rfl, by decide,
    (validate_password_aggregates_failures "hunter2" none
      [demo_fail_validator1, demo_ok_validator, demo_fail_validator2]
      rfl (by decide)).1⟩

/-- Claim C9: with an empty validator list, `validate_password` succeeds
(returns `None`, raising nothing) for every password. -/
theorem validate_password_empty_succeeds (password : String) (user : Option String) :
    validate_password password user [] = .ok () := rfl

theorem run_validators_append_propagates (password : String) (user : Option String)
    (v : Validator) (e : PyExn)
    (hv : v.validate password user = .error e)
    (he : is_validation_error (v.validate password user) = false) :
    ∀ post pre : List Validator,
      (pre.all fun u => well_behaved (u.validate password user)) = true →
      run_validators password user (pre ++ v :: post) = .error e := by
  intro post pre
  induction pre with
  | nil =>
    intro _
    rw [hv] at he
    cases e with
    | validationError d => simp [is_validation_error] at he
    | improperlyConfigured m => simp [run_validators, hv]
    | other t => simp [run_validators, hv]
  | cons u pre ih =>
    intro h
    simp only [List.all_cons, Bool.and_eq_true] at h
    obtain ⟨hu, hpre⟩ := h
    have ih' := ih hpre
    rw [List.cons_append]
    cases hval : u.validate password user with
    | ok x => simp [run_validators, hval, ih']
    | error e' =>
      cases e' with
      | validationError d => simp [run_validators, hval, ih']
      | improperlyConfigured m => rw [hval] at hu; simp [well_behaved] at hu
      | other t => rw [hval] at hu; simp [well_behaved] at hu

/-- Claim C10: `validate_password` catches only `ValidationError`; if a
validator raises any other exception, that exception propagates
unchanged, the validators after it do not influence the outcome (the
result is the same for every suffix `post`), and no aggregate error is
produced. -/
theorem non_validation_exception_propagates (password : String)
    (user : Option String) (pre post : List Validator) (v : Validator) (e : PyExn)
    (hpre : (pre.all fun u => well_behaved (u.validate password user)) = true)
    (hv : v.validate password user = .error e)
    (he : is_validation_error (v.validate password user) = false) :
    validate_password password user (pre ++ v :: post) = .error e := by
  unfold validate_password
  rw [run_validators_append_propagates password user v e hv he post pre hpre]

/-- Witness for claim C10: a validator raising a `TypeError`-like
exception between two failing validators; the exception propagates and no
aggregate is raised. -/
theorem non_validation_exception_propagates_witness :
    validate_password "hunter2" none
        ([demo_fail_validator1] ++ demo_raise_validator :: [demo_fail_validator2]) =
      .error (.other "TypeError") :=
  non_validation_exception_propagates "hunter2" none [demo_fail_validator1]
    [demo_fail_validator2] demo_raise_validator (.other "TypeError") rfl rfl rfl

theorem constructors_invoked_eq_findIdx (resolve : String → Option ValidatorClass) :
    ∀ cfg : List ValidatorConfig,
      constructors_invoked resolve cfg =
        cfg.findIdx fun c => (resolve c.NAME).isNone := by
  intro cfg
  induction cfg with
  | nil => rfl
  | cons c cs ih =>
    cases hr : resolve c.NAME with
    | none => simp [constructors_invoked, hr, List.findIdx_cons]
    | some cls =>
      simp [constructors_invoked, hr, List.findIdx_cons, ih]
      omega

theorem get_password_validators_error_shape (resolve : String → Option ValidatorClass) :
    ∀ (cfg : List ValidatorConfig) (name : String),
      first_unresolvable resolve cfg = some name →
      get_password_validators resolve cfg =
        .error (.improperlyConfigured (ic_message name)) := by
  intro cfg
  induction cfg with
  | nil => intro name h; simp [first_unresolvable] at h
  | cons c cs ih =>
    intro name h
    cases hr : resolve c.NAME with
    | none =>
      rw [first_unresolvable, hr] at h
      cases h
      simp [get_password_validators, hr]
    | some cls =>
      rw [first_unresolvable, hr] at h
      simp [get_password_validators, hr, ih name h]

/-- Counterexample for claim C3 as stated: a configuration whose first
descriptor resolves and whose second does not.  Construction does fail
with `ImproperlyConfigured` naming the offending descriptor, but the
loop has already invoked one validator constructor
(`cls(**validator.get("OPTIONS", {}))` for the first descriptor) before
raising — the failure does not occur before any validator instance is
built. -/
theorem get_password_validators_builds_before_failure :
    get_password_validators demo_resolve [demo_config_good, demo_config_bad] =
      .error (.improperlyConfigured
        (ic_message "sentry.auth.password_validation.Missing")) ∧
    constructors_invoked demo_resolve [demo_config_good, demo_config_bad] = 1 :=
  ⟨rfl, rfl⟩

/-- Claim C3 (amended): given an unresolvable type name anywhere in the
list, `get_password_validators` fails with `ImproperlyConfigured` (not a
`ValidationError`) whose message contains the first unresolvable name,
before the offending descriptor's instance or any later instance is
built; instances for the descriptors preceding the first unresolvable one
are constructed by the loop (one constructor invocation each) and then
discarded — the number of constructor invocations equals the index of the
first unresolvable descriptor. -/
theorem get_password_validators_unresolvable (resolve : String → Option ValidatorClass)
    (cfg : List ValidatorConfig) (name : String)
    (h : first_unresolvable resolve cfg = some name) :
    get_password_validators resolve cfg =
      .error (.improperlyConfigured (ic_message name)) ∧
    (∃ pre suf, ic_message name = pre ++ name ++ suf) ∧
    constructors_invoked resolve cfg =
      cfg.findIdx fun c => (resolve c.NAME).isNone :=
  ⟨get_password_validators_error_shape resolve cfg name h,
   ⟨"The module in NAME could not be imported: ",
    ". Check your AUTH_PASSWORD_VALIDATORS setting.", rfl⟩,
   constructors_invoked_eq_findIdx resolve cfg⟩

/-- Witness for claim C3 (amended): the concrete two-descriptor
configuration; the first unresolvable name is the second descriptor's. -/
theorem get_password_validators_unresolvable_witness :
    first_unresolvable demo_resolve [demo_config_good, demo_config_bad] =
      some "sentry.auth.password_validation.Missing" ∧
    get_password_validators demo_resolve [demo_config_good, demo_config_bad] =
      .error (.improperlyConfigured
        (ic_message "sentry.auth.password_validation.Missing")) :=
  ⟨rfl,
   (get_password_validators_unresolvable demo_resolve
     [demo_config_good, demo_config_bad]
     "sentry.auth.password_validation.Missing" rfl).1⟩

/-- Claim C5: when every descriptor's name resolves,
`get_password_validators` returns exactly one instance per descriptor, in
input order, the i-th built by applying the i-th resolved class to the
i-th descriptor's options mapping (defaulted to empty when absent). -/
theorem get_password_validators_all_resolvable (resolve : String → Option ValidatorClass)
    (cfg : List ValidatorConfig)
    (h : (cfg.all fun c => (resolve c.NAME).isSome) = true) :
    ∃ vs : List Validator,
      get_password_validators resolve cfg = .ok vs ∧
      vs.length = cfg.length ∧
      List.Forall₂ (fun c v => ∃ cls, resolve c.NAME = some cls ∧
        v = cls (c.OPTIONS.getD [])) cfg vs := by
  induction cfg with
  | nil => exact ⟨[], rfl, rfl, List.Forall₂.nil⟩
  | cons c cs ih =>
    simp only [List.all_cons, Bool.and_eq_true] at h
    obtain ⟨hc, hcs⟩ := h
    obtain ⟨vs, hok, hlen, hf⟩ := ih hcs
    cases hr : resolve c.NAME with
    | none => rw [hr] at hc; simp at hc
    | some cls =>
      refine ⟨cls (c.OPTIONS.getD []) :: vs, ?_, ?_, ?_⟩
      · simp [get_password_validators, hr, hok]
      · simp [hlen]
      · exact List.Forall₂.cons ⟨cls, hr, rfl⟩ hf

/-- Witness for claim C5: a single resolvable descriptor yields exactly
one instance, built from its class and options. -/
theorem get_password_validators_all_resolvable_witness :
    (([demo_config_good].all fun c => (demo_resolve c.NAME).isSome) = true) ∧
    ∃ vs : List Validator,
      get_password_validators demo_resolve [demo_config_good] = .ok vs ∧
      vs.length = [demo_config_good].length ∧
      List.Forall₂ (fun c v => ∃ cls, demo_resolve c.NAME = some cls ∧
        v = cls (c.OPTIONS.getD [])) [demo_config_good] vs :=
  ⟨rfl, get_password_validators_all_resolvable demo_resolve [demo_config_good] rfl⟩

/-- Claim C4: for the Maximum-Length validator with configured limit
`max_length` (default 256 when the option is absent): every password of
length at most `max_length` validates successfully, and every password of
length greater than `max_length` fails with code `password_too_long` and
params containing `max_length`. -/
theorem maximum_length_validator_spec (n : Nat) (password : String)
    (user : Option String) :
    (MaximumLengthValidator.new []).max_length = 256 ∧
    (password.length ≤ n →
      (MaximumLengthValidator.mk n).validate password user = .ok ()) ∧
    (password.length > n →
      (MaximumLengthValidator.mk n).validate password user =
        .error (.validationError (.single (max_length_message n)
          (some "password_too_long") [("max_length", n)]))) := by
  refine ⟨rfl, fun h => ?_, fun h => ?_⟩
  · simp only [MaximumLengthValidator.validate]
    rw [if_neg (by omega)]
  · simp only [MaximumLengthValidator.validate]
    rw [if_pos (by omega)]

/-- Witness for claim C4: limit 3; a 3-character password passes, a
4-character password fails with the `password_too_long` error. -/
theorem maximum_length_validator_spec_witness :
    ("abc".length ≤ 3 ∧
      (MaximumLengthValidator.mk 3).validate "abc" none = .ok ()) ∧
    ("abcd".length > 3 ∧
      (MaximumLengthValidator.mk 3).validate "abcd" none =
        .error (.validationError (.single (max_length_message 3)
          (some "password_too_long") [("max_length", 3)]))) :=
  ⟨⟨by decide, (maximum_length_validator_spec 3 "abc" none).2.1 (by decide)⟩,
   ⟨by decide, (maximum_length_validator_spec 3 "abcd" none).2.2 (by decide)⟩⟩

/-- Claim C8: help-text aggregation returns exactly one entry per
validator — the list of their `get_help_text` results, in configuration
order — and the HTML rendering is the empty string for zero validators
and otherwise a `<ul>` wrapping the concatenation of one `<li>` item per
help text. -/
theorem password_validators_help_texts_spec (vs : List Validator) :
    password_validators_help_texts vs = vs.map (fun v => v.get_help_text) ∧
    (password_validators_help_texts vs).length = vs.length ∧
    (vs = [] → password_validators_help_text_html vs = "") ∧
    (vs ≠ [] → password_validators_help_text_html vs =
      "<ul>" ++ String.join ((password_validators_help_texts vs).map li_item) ++
        "</ul>") := by
  have hmap : ∀ ws : List Validator,
      password_validators_help_texts ws = ws.map fun v => v.get_help_text := by
    intro ws
    induction ws with
    | nil => rfl
    | cons w ws ih => simp [password_validators_help_texts, ih]
  refine ⟨hmap vs, by rw [hmap vs]; simp, fun h => by subst h; rfl, fun h => ?_⟩
  have hne : ((password_validators_help_texts vs).map li_item).isEmpty = false := by
    rw [hmap vs]
    cases vs with
    | nil => exact absurd rfl h
    | cons a l => rfl
  simp only [password_validators_help_text_html]
  rw [hne]
  rfl

/-- Witness for claim C8: zero validators render to the empty string; a
single validator renders to a `<ul>` with one `<li>`. -/
theorem password_validators_help_texts_spec_witness :
    password_validators_help_text_html [] = "" ∧
    ([demo_ok_validator] ≠ ([] : List Validator) ∧
      password_validators_help_text_html [demo_ok_validator] =
        "<ul>" ++
          String.join ((password_validators_help_texts [demo_ok_validator]).map
            li_item) ++ "</ul>") :=
  ⟨(password_validators_help_texts_spec []).2.2.1 rfl,
   ⟨List.cons_ne_nil demo_ok_validator [],
    (password_validators_help_texts_spec [demo_ok_validator]).2.2.2
      (List.cons_ne_nil demo_ok_validator [])⟩⟩

/-- Claim C2: after `delete` on an Alive record, the default retrieval
path (`objects`, filtering `date_deleted__isnull=True`) no longer returns
any record with its primary key, the unfiltered path (`with_deleted`)
still returns it, and its `date_deleted` is non-null and equal to the
`timezone.now()` value of the call (hence at least the time of the
call). -/
theorem soft_delete_spec {α : Type} (db : ParanoidTable α) (r : ParanoidModel α)
    (now : Nat) (hmem : r ∈ db) (_halive : r.date_deleted = none) :
    (∀ s ∈ ParanoidManager.get_queryset (r.delete now db), s.id ≠ r.id) ∧
    (∃ s ∈ ParanoidModel.with_deleted (r.delete now db),
      s.id = r.id ∧ s.date_deleted = some now) := by
  constructor
  · intro s hs hid
    rw [ParanoidManager.get_queryset, List.mem_filter] at hs
    obtain ⟨hsmem, hnone⟩ := hs
    rw [ParanoidModel.delete, update_date_deleted, List.mem_map] at hsmem
    obtain ⟨t, ht, hft⟩ := hsmem
    by_cases h : t.id = r.id
    · rw [if_pos h] at hft
      subst hft
      simp at hnone
    · rw [if_neg h] at hft
      subst hft
      exact h hid
  · refine ⟨{ r with date_deleted := some now }, ?_, rfl, rfl⟩
    rw [ParanoidModel.with_deleted, ParanoidModel.delete, update_date_deleted,
      List.mem_map]
    exact ⟨r, hmem, by rw [if_pos rfl]⟩

/-- Witness for claim C2: deleting the first row of the example table at
time 7 removes it from the default path and keeps it, timestamped 7, in
the unfiltered path. -/
theorem soft_delete_spec_witness :
    demo_row1 ∈ demo_table ∧ demo_row1.date_deleted = none ∧
    (∀ s ∈ ParanoidManager.get_queryset (demo_row1.delete 7 demo_table),
      s.id ≠ demo_row1.id) ∧
    (∃ s ∈ ParanoidModel.with_deleted (demo_row1.delete 7 demo_table),
      s.id = demo_row1.id ∧ s.date_deleted = some 7) :=
  ⟨by decide, rfl, soft_delete_spec demo_table demo_row1 7 (by decide) rfl⟩

/-- Claim C6: the bulk delete (`ParanoidQuerySet.delete`, i.e.
`self.update(date_deleted=timezone.now())` over the filtered set) keeps
every row (no physical removal: same number of rows, positionally
matched), sets `date_deleted` to the call's timestamp on every row
matching the filter while preserving its key and other fields, and leaves
every non-matching row entirely unchanged. -/
theorem bulk_delete_spec {α : Type} (p : ParanoidModel α → Bool) (now : Nat)
    (db : ParanoidTable α) :
    (ParanoidQuerySet.delete p now db).length = db.length ∧
    List.Forall₂ (fun r r' =>
        r'.id = r.id ∧ r'.fields = r.fields ∧
        (p r = true → r'.date_deleted = some now) ∧
        (p r = false → r' = r))
      db (ParanoidQuerySet.delete p now db) := by
  constructor
  · rw [ParanoidQuerySet.delete]
    exact List.length_map db _
  · induction db with
    | nil => exact List.Forall₂.nil
    | cons r l ih =>
      rw [ParanoidQuerySet.delete, List.map_cons]
      refine List.Forall₂.cons ?_ ih
      by_cases hp : p r = true
      · rw [if_pos hp]
        exact ⟨rfl, rfl, fun _ => rfl, fun hf => absurd hp (by rw [hf]; simp)⟩
      · rw [if_neg hp]
        exact ⟨rfl, rfl, fun ht => absurd ht hp, fun _ => rfl⟩

/-- Claim C7: deleting the same record twice leaves it Deleted; under a
monotone clock (the second call's `timezone.now()` is no earlier than the
first's) every stored row with the record's primary key carries the
second timestamp, which is no earlier than the first call's, and such a
row exists. -/
theorem delete_idempotent_spec {α : Type} (db : ParanoidTable α)
    (r : ParanoidModel α) (now1 now2 : Nat) (hmem : r ∈ db)
    (hle : now1 ≤ now2) :
    (∃ s ∈ r.delete now2 (r.delete now1 db),
      s.id = r.id ∧ s.date_deleted = some now2) ∧
    (∀ s ∈ r.delete now2 (r.delete now1 db), s.id = r.id →
      ∃ t, s.date_deleted = some t ∧ now1 ≤ t) := by
  constructor
  · refine ⟨{ r with date_deleted := some now2 }, ?_, rfl, rfl⟩
    rw [ParanoidModel.delete, ParanoidModel.delete, update_date_deleted,
      update_date_deleted, List.mem_map]
    refine ⟨{ r with date_deleted := some now1 }, ?_, by rw [if_pos rfl]⟩
    rw [List.mem_map]
    exact ⟨r, hmem, by rw [if_pos rfl]⟩
  · intro s hs hid
    rw [ParanoidModel.delete, update_date_deleted, List.mem_map] at hs
    obtain ⟨t, _, hft⟩ := hs
    by_cases h : t.id = r.id
    · rw [if_pos h] at hft
      subst hft
      exact ⟨now2, rfl, hle⟩
    · rw [if_neg h] at hft
      subst hft
      exact absurd hid h

/-- Witness for claim C7: deleting the second example row at times 4 and
then 9 leaves it with timestamp 9 ≥ 4. -/
theorem delete_idempotent_spec_witness :
    demo_row2 ∈ demo_table ∧ (4 : Nat) ≤ 9 ∧
    (∃ s ∈ demo_row2.delete 9 (demo_row2.delete 4 demo_table),
      s.id = demo_row2.id ∧ s.date_deleted = some 9) ∧
    (∀ s ∈ demo_row2.delete 9 (demo_row2.delete 4 demo_table),
      s.id = demo_row2.id → ∃ t, s.date_deleted = some t ∧ 4 ≤ t) :=
  ⟨by decide, by decide,
    delete_idempotent_spec demo_table demo_row2 4 9 (by decide) (by decide)⟩
